import Mathlib

/-!
Shallow embedding of the `filedb` crate (src/filedb.rs, src/error.rs):
a key/timestamp-addressed blob store on top of SQLite, with zlib
compression of the stored payloads.

External collaborators (the SQLite engine via `rusqlite` and the
compression codec via `flate2`) are modelled by their documented
contracts: the database is a list of rows holding SQL values, value
decoding follows rusqlite's `FromSql` behaviour (a `Vec<u8>` decode
accepts only BLOB values, an `i64` decode only INTEGER values, a
`String` decode only TEXT values), and the codec is a parameter whose
round-trip property is the contract the crate relies on.  The SQL query
texts (`init_query.sql`, `insert_query.sql`, `retrieve_file.sql`,
`cleanup_query.sql`) are included via `include_str!` and are not part of
the available sources; where their behaviour matters it is modelled from
the specification (primary key on (key, time_stamp), exact-pair lookup,
range delete on the timestamp column), marked `Modelled from the spec:`
at the relevant definition.
-/

namespace Filedb

/-- A chrono `NaiveDateTime`: an instant with whole seconds since the
epoch and a sub-second nanosecond part.  `timestamp()` returns the
seconds and discards the nanoseconds. -/
structure NaiveDateTime where
  secs : Int
  nsecs : Nat
  deriving DecidableEq, Repr

/-- chrono's `NaiveDateTime::timestamp`: integer seconds since the
epoch; the sub-second part is discarded. -/
def NaiveDateTime.timestamp (t : NaiveDateTime) : Int := t.secs

/-- chrono's `NaiveDateTime::from_timestamp(secs, 0)` as used in
`list_all`: second-granular instant with a zero nanosecond part. -/
def NaiveDateTime.from_timestamp (secs : Int) : NaiveDateTime := ⟨secs, 0⟩

/-- Subtraction of a whole number of days, as in
`now - chrono::Duration::days(365)`: each day is 86400 seconds. -/
def NaiveDateTime.subDays (t : NaiveDateTime) (d : Int) : NaiveDateTime :=
  ⟨t.secs - d * 86400, t.nsecs⟩

/-- An SQLite value stored in a column. -/
inductive SqlValue where
  | null
  | integer (i : Int)
  | text (s : String)
  | blob (b : List UInt8)
  deriving DecidableEq, Repr

/-- An error produced by the `rusqlite` engine layer. -/
inductive RusqliteError where
  | queryReturnedNoRows
  | invalidColumnType
  | constraintViolation
  | other (msg : String)
  deriving DecidableEq, Repr

/-- An `std::io::Error`, kept abstract as a message. -/
structure IoError where
  msg : String
  deriving DecidableEq, Repr

/-- The contents of the `Box<dyn std::error::Error>` payload of
`Error::InternalError`: a foreign error from `rusqlite` or `std::io`. -/
inductive ForeignError where
  | sqlite (e : RusqliteError)
  | io (e : IoError)
  deriving DecidableEq, Repr

/-- The error enum of src/error.rs. -/
inductive Error where
  | GeneralError (msg : String)
  | InternalError (err : ForeignError)
  | TimeStampNotAvailable (key : String) (time_stamp : NaiveDateTime)
  | NoMatch (requested_key : String)
  deriving DecidableEq, Repr

/-- The `From<rusqlite::Error> for Error` impl of src/error.rs: boxes the
engine error into `InternalError`. -/
def Error.fromSqlite (e : RusqliteError) : Error :=
  Error.InternalError (ForeignError.sqlite e)

/-- The `From<std::io::Error> for Error` impl of src/error.rs: boxes the
I/O error into `InternalError`. -/
def Error.fromIo (e : IoError) : Error :=
  Error.InternalError (ForeignError.io e)

/-- One row of the `files` table: columns `key`, `time_stamp`, `data`. -/
structure Row where
  key : SqlValue
  time_stamp : SqlValue
  data : SqlValue
  deriving DecidableEq, Repr

/-- The database behind a `FileDB` handle: the rows of the `files`
table, in storage order. -/
structure FileDB where
  rows : List Row
  deriving DecidableEq, Repr

/-- The compression codec (`flate2` zlib encoder/decoder), modelled by
its interface: both directions stream through `std::io::Write` and can
fail with an `std::io::Error`. -/
structure Codec where
  compress : List UInt8 → Except IoError (List UInt8)
  decompress : List UInt8 → Except IoError (List UInt8)

/-- An injected failure of a single engine call (e.g. the database file
is unreadable); `none` means the engine call itself works. -/
def SqlFault : Type := Option RusqliteError

/-- rusqlite `FromSql` for `Vec<u8>` (`row.get` on a blob column): only
a BLOB value decodes; NULL or any other storage class is an
`InvalidColumnType` error. -/
def getBlob (v : SqlValue) : Except RusqliteError (List UInt8) :=
  match v with
  | SqlValue.blob b => Except.ok b
  | _ => Except.error RusqliteError.invalidColumnType

/-- rusqlite `FromSql` for `String`: only a TEXT value decodes. -/
def getText (v : SqlValue) : Except RusqliteError String :=
  match v with
  | SqlValue.text s => Except.ok s
  | _ => Except.error RusqliteError.invalidColumnType

/-- rusqlite `FromSql` for `i64`: only an INTEGER value decodes. -/
def getInteger (v : SqlValue) : Except RusqliteError Int :=
  match v with
  | SqlValue.integer i => Except.ok i
  | _ => Except.error RusqliteError.invalidColumnType

/-- Whether a stored row matches the bound parameters (key as TEXT,
time stamp as INTEGER) of the exact-pair lookup. -/
def rowMatches (k : String) (s : Int) (r : Row) : Bool :=
  r.key = SqlValue.text k && r.time_stamp = SqlValue.integer s

/-- Modelled from the spec: `retrieve_file.sql` is not under src/; per
the spec it looks up the single row matching the exact
(key, time_stamp_seconds) pair and selects its `data` column.
`query_row` returns the first matching row's mapped value, or
`QueryReturnedNoRows` when no row matches; the row mapper is
`row.get(0)` at type `Vec<u8>`. -/
def queryRowData (db : FileDB) (k : String) (s : Int) :
    Except RusqliteError (List UInt8) :=
  match db.rows.find? (rowMatches k s) with
  | none => Except.error RusqliteError.queryReturnedNoRows
  | some r => getBlob r.data

/-- rusqlite's `OptionalExtension::optional`: converts the
`QueryReturnedNoRows` error into `Ok(None)` and passes every other
outcome through. -/
def optional {α : Type} (r : Except RusqliteError α) :
    Except RusqliteError (Option α) :=
  match r with
  | Except.ok v => Except.ok (some v)
  | Except.error RusqliteError.queryReturnedNoRows => Except.ok none
  | Except.error e => Except.error e

/-- `FileDB::retrieve_file` (src/filedb.rs lines 37-63): truncates the
time stamp to seconds, runs the exact-pair lookup with
`query_row(..).optional()?`, returns `Ok(None)` when the optional lookup
yields no value, and otherwise inflates the stored bytes through the
zlib decoder.  `fault` injects a failure of the engine call itself. -/
def FileDB.retrieve_file (c : Codec) (fault : SqlFault) (db : FileDB)
    (key : String) (time_stamp : NaiveDateTime) :
    Except Error (Option (List UInt8)) :=
  let s : Int := time_stamp.timestamp
  match fault with
  | some e => Except.error (Error.fromSqlite e)
  | none =>
    match optional (queryRowData db key s) with
    | Except.error e => Except.error (Error.fromSqlite e)
    | Except.ok none => Except.ok none
    | Except.ok (some bytes) =>
      match c.decompress bytes with
      | Except.error e => Except.error (Error.fromIo e)
      | Except.ok writer => Except.ok (some writer)

/-- Modelled from the spec: `insert_query.sql` and `init_query.sql` are
not under src/; per the spec (and the crate docs in src/lib.rs) the
table has a composite primary key on (key, time_stamp), so inserting a
duplicate pair fails with a constraint violation, and a fresh pair
appends a new row. -/
def insertRow (db : FileDB) (k : String) (s : Int) (d : List UInt8) :
    Except RusqliteError FileDB :=
  if db.rows.any (rowMatches k s) then
    Except.error RusqliteError.constraintViolation
  else
    Except.ok ⟨db.rows ++ [⟨SqlValue.text k, SqlValue.integer s, SqlValue.blob d⟩]⟩

/-- `FileDB::add_file` (src/filedb.rs lines 95-119): compresses the
payload with the zlib encoder, truncates the time stamp to seconds, and
binds (key, seconds, compressed bytes) into the insert.  `fault` injects
a failure of the engine call itself. -/
def FileDB.add_file (c : Codec) (fault : SqlFault) (db : FileDB)
    (key : String) (time_stamp : NaiveDateTime) (data : List UInt8) :
    Except Error FileDB :=
  match c.compress data with
  | Except.error e => Except.error (Error.fromIo e)
  | Except.ok compressed_data =>
    let s : Int := time_stamp.timestamp
    match fault with
    | some e => Except.error (Error.fromSqlite e)
    | none =>
      match insertRow db key s compressed_data with
      | Except.error e => Except.error (Error.fromSqlite e)
      | Except.ok db2 => Except.ok db2

/-- The row mapper of `list_all`:
`row.get(0).and_then(|key| row.get(1).map(|ts| (key, ts)))` — decode the
key as TEXT and the time stamp as INTEGER. -/
def listRowMapper (r : Row) : Except RusqliteError (String × Int) :=
  (getText r.key).bind (fun key => (getInteger r.time_stamp).map (fun ts => (key, ts)))

/-- `Result::ok`: keep the value of a successful decode, drop errors. -/
def exceptToOption {ε α : Type} (r : Except ε α) : Option α :=
  match r with
  | Except.ok v => some v
  | Except.error _ => none

/-- `FileDB::list_all` (src/filedb.rs lines 71-82): full scan of
`SELECT key, time_stamp FROM files` (this query text is inline in src/),
mapping each row through the decoder, silently dropping rows whose
decode fails (`filter_map(res.ok())`), and rebuilding a second-granular
`NaiveDateTime` from each surviving timestamp.  `fault` injects a
failure of the prepare/query engine call. -/
def FileDB.list_all (fault : SqlFault) (db : FileDB) :
    Except Error (List (String × NaiveDateTime)) :=
  match fault with
  | some e => Except.error (Error.fromSqlite e)
  | none =>
    Except.ok (((db.rows.map listRowMapper).filterMap exceptToOption).map
      (fun p => (p.1, NaiveDateTime.from_timestamp p.2)))

/-- Modelled from the spec: `cleanup_query.sql` is not under src/; per
the spec the release-time sweep "executes a deletion of all rows whose
timestamp is older than now minus 365 days".  A stored row is deleted
exactly when its `time_stamp` column is an INTEGER strictly below the
horizon's integer seconds. -/
def cleanup (db : FileDB) (earliest : NaiveDateTime) : FileDB :=
  ⟨db.rows.filter (fun r =>
    match r.time_stamp with
    | SqlValue.integer s => decide (earliest.timestamp ≤ s)
    | _ => true)⟩

/-- The `Drop` impl (src/filedb.rs lines 122-127): computes
`now - 365 days`, runs the cleanup delete, and discards its result with
`let _ = ...`.  The first component is the database after the drop; the
second is the error the release operation reports to its caller — by
construction of `let _ =` it is always `none`. -/
def FileDB.drop (fault : SqlFault) (db : FileDB) (now : NaiveDateTime) :
    FileDB × Option Error :=
  let earliest_date := now.subDays 365
  let sweep : Except RusqliteError FileDB :=
    match fault with
    | some e => Except.error e
    | none => Except.ok (cleanup db earliest_date)
  match sweep with
  | Except.error _ => (db, none)
  | Except.ok db2 => (db2, none)

/-- `FileDB::connect` (src/filedb.rs lines 15-20): opens (creating if
absent) the database file, then runs the schema-initialization
statement.  Modelled from the spec: `init_query.sql` is not under src/;
per the spec it is an idempotent create-table-if-not-exists, so the
rows already on disk are preserved.  `openFault` and `initFault` inject
failures of the two engine calls. -/
def FileDB.connect (openFault initFault : SqlFault) (disk : Option FileDB) :
    Except Error FileDB :=
  match openFault with
  | some e => Except.error (Error.fromSqlite e)
  | none =>
    match initFault with
    | some e => Except.error (Error.fromSqlite e)
    | none =>
      match disk with
      | some db => Except.ok db
      | none => Except.ok ⟨[]⟩

/-- A concrete instance of the codec interface, used to evaluate the
store's operations on closed inputs: it frames the payload between the
two customary zlib header bytes, and decoding rejects a stream without
that frame.  It satisfies the lossless round-trip contract the spec
requires of the external codec. -/
def simpleCodec : Codec where
  compress := fun l => Except.ok (0x78 :: 0x9c :: l)
  decompress := fun l =>
    match l with
    | 0x78 :: 0x9c :: rest => Except.ok rest
    | _ => Except.error ⟨"corrupt deflate stream"⟩

/-- A codec instance whose both directions fail, exercising the
error-propagation paths of the compression layer. -/
def failingCodec : Codec where
  compress := fun _ => Except.error ⟨"compression failed"⟩
  decompress := fun _ => Except.error ⟨"corrupt deflate stream"⟩

/-- The (key, time_stamp) column values of a stored row — the
projection the listing scan and the primary key depend on. -/
def keyTs (r : Row) : SqlValue × SqlValue := (r.key, r.time_stamp)

/-- The SQL values `add_file` binds for the key and the truncated
timestamp of one write request (key, datetime, payload). -/
def sqlPair (e : String × NaiveDateTime × List UInt8) : SqlValue × SqlValue :=
  (SqlValue.text e.1, SqlValue.integer e.2.1.timestamp)

/-- The listing row mapper expressed on the projected column pair. -/
def pairMapper (p : SqlValue × SqlValue) : Except RusqliteError (String × Int) :=
  (getText p.1).bind (fun key => (getInteger p.2).map (fun ts => (key, ts)))

/-- Sequencing of write calls: `add_file` for each request in order,
stopping at the first failure (the scenario "writing N rows"). -/
def addAll (c : Codec) (db : FileDB) :
    List (String × NaiveDateTime × List UInt8) → Except Error FileDB
  | [] => Except.ok db
  | e :: rest =>
    match FileDB.add_file c none db e.1 e.2.1 e.2.2 with
    | Except.error err => Except.error err
    | Except.ok db2 => addAll c db2 rest

end Filedb

namespace Filedb

/-- C1: on a store with no row for the requested (key, second-truncated
timestamp) pair, `retrieve_file` does not fail with
`TimeStampNotAvailable`: `query_row(..).optional()?` converts the
no-rows outcome into `Ok(None)`, so the call succeeds with `None`
(src/filedb.rs lines 47-62; the variant `Error::TimeStampNotAvailable`
is never constructed anywhere in the crate). -/
theorem retrieve_missing_pair_is_ok_none :
    FileDB.retrieve_file simpleCodec none ⟨[]⟩ "report.txt" ⟨1672531200, 0⟩ =
      Except.ok none ∧
    FileDB.retrieve_file simpleCodec none ⟨[]⟩ "report.txt" ⟨1672531200, 0⟩ ≠
      Except.error (Error.TimeStampNotAvailable "report.txt" ⟨1672531200, 0⟩) := by
  refine ⟨rfl, ?_⟩
  intro h
  exact Except.noConfusion h

/-- C2: on a store whose row for the requested pair holds SQL-NULL in
the data column, `retrieve_file` does not return `Ok(None)`: the row
mapper decodes the column at type `Vec<u8>`, which rejects NULL with
`InvalidColumnType`, and that error is surfaced as `InternalError`
(src/filedb.rs lines 47-54). -/
theorem retrieve_null_row_is_internal_error :
    FileDB.retrieve_file simpleCodec none
        ⟨[⟨SqlValue.text "report.txt", SqlValue.integer 1672531200, SqlValue.null⟩]⟩
        "report.txt" ⟨1672531200, 0⟩ =
      Except.error (Error.InternalError (ForeignError.sqlite RusqliteError.invalidColumnType)) ∧
    FileDB.retrieve_file simpleCodec none
        ⟨[⟨SqlValue.text "report.txt", SqlValue.integer 1672531200, SqlValue.null⟩]⟩
        "report.txt" ⟨1672531200, 0⟩ ≠
      Except.ok none := by
  refine ⟨rfl, ?_⟩
  intro h
  exact Except.noConfusion h

/-- C4: both `add_file` and `retrieve_file` use
`time_stamp.timestamp()` — second truncation — as the bound row key, so
two timestamps with equal whole seconds (differing only below one
second) address the same stored row and produce identical results. -/
theorem truncation_same_row (c : Codec) (f : SqlFault) (db : FileDB)
    (k : String) (t1 t2 : NaiveDateTime) (d : List UInt8)
    (h : t1.secs = t2.secs) :
    FileDB.add_file c f db k t1 d = FileDB.add_file c f db k t2 d ∧
    FileDB.retrieve_file c f db k t1 = FileDB.retrieve_file c f db k t2 := by
  constructor <;>
    simp only [FileDB.add_file, FileDB.retrieve_file, NaiveDateTime.timestamp, h]

/-- Witness for C4 at concrete inputs: 500 ms and 999999999 ns above the
same whole second address the same row. -/
theorem truncation_same_row_witness :
    FileDB.add_file simpleCodec none ⟨[]⟩ "k" ⟨5, 500000000⟩ [7] =
      FileDB.add_file simpleCodec none ⟨[]⟩ "k" ⟨5, 999999999⟩ [7] ∧
    FileDB.retrieve_file simpleCodec none ⟨[]⟩ "k" ⟨5, 500000000⟩ =
      FileDB.retrieve_file simpleCodec none ⟨[]⟩ "k" ⟨5, 999999999⟩ :=
  truncation_same_row simpleCodec none ⟨[]⟩ "k" ⟨5, 500000000⟩ ⟨5, 999999999⟩ [7] rfl

/-- Helper: a row built from the bound insert parameters matches the
lookup predicate for the same key and seconds. -/
theorem rowMatches_self (k : String) (s : Int) (d : SqlValue) :
    rowMatches k s ⟨SqlValue.text k, SqlValue.integer s, d⟩ = true := by
  simp [rowMatches]

/-- Helper: what a successful `add_file` (no engine fault, compression
succeeding with `cd`) did to the store: the bound pair was fresh, and
exactly one row — key as TEXT, truncated seconds as INTEGER, the
compressed bytes as BLOB — was appended. -/
theorem add_file_ok (c : Codec) (db db' : FileDB) (k : String)
    (t : NaiveDateTime) (d cd : List UInt8)
    (hc : c.compress d = Except.ok cd)
    (h : FileDB.add_file c none db k t d = Except.ok db') :
    db.rows.any (rowMatches k t.timestamp) = false ∧
    db'.rows = db.rows ++
      [⟨SqlValue.text k, SqlValue.integer t.timestamp, SqlValue.blob cd⟩] := by
  simp only [FileDB.add_file, hc, insertRow] at h
  by_cases hany : db.rows.any (rowMatches k t.timestamp) = true
  · rw [if_pos hany] at h
    exact Except.noConfusion h
  · rw [if_neg hany] at h
    refine ⟨Bool.not_eq_true _ ▸ hany, ?_⟩
    cases h
    rfl

/-- C10: whenever `add_file` succeeds, the value it bound for the data
column is the compressed encoding of the payload — a BLOB, never
SQL-NULL, and (whenever the encoding differs from the payload, as the
zlib framing guarantees) never the raw payload bytes. -/
theorem add_file_stores_compressed_blob (c : Codec) (db db' : FileDB)
    (k : String) (t : NaiveDateTime) (d cd : List UInt8)
    (hc : c.compress d = Except.ok cd)
    (h : FileDB.add_file c none db k t d = Except.ok db') :
    db'.rows = db.rows ++
      [⟨SqlValue.text k, SqlValue.integer t.timestamp, SqlValue.blob cd⟩] ∧
    SqlValue.blob cd ≠ SqlValue.null ∧
    (cd ≠ d → SqlValue.blob cd ≠ SqlValue.blob d) := by
  refine ⟨(add_file_ok c db db' k t d cd hc h).2, fun hx => SqlValue.noConfusion hx, ?_⟩
  intro hne heq
  exact hne (by injection heq)

/-- Witness for C10: adding the empty payload to a fresh store binds the
framed (compressed) bytes, which are a non-NULL BLOB distinct from the
raw empty payload. -/
theorem add_file_stores_compressed_blob_witness :
    simpleCodec.compress [] = Except.ok [0x78, 0x9c] ∧
    FileDB.add_file simpleCodec none ⟨[]⟩ "k" ⟨5, 0⟩ [] =
      Except.ok ⟨[⟨SqlValue.text "k", SqlValue.integer 5, SqlValue.blob [0x78, 0x9c]⟩]⟩ ∧
    ((⟨[⟨SqlValue.text "k", SqlValue.integer 5, SqlValue.blob [0x78, 0x9c]⟩]⟩ : FileDB).rows =
      (⟨[]⟩ : FileDB).rows ++ [⟨SqlValue.text "k", SqlValue.integer 5, SqlValue.blob [0x78, 0x9c]⟩] ∧
    SqlValue.blob [0x78, 0x9c] ≠ SqlValue.null ∧
    (([0x78, 0x9c] : List UInt8) ≠ [] → SqlValue.blob [0x78, 0x9c] ≠ SqlValue.blob [])) :=
  ⟨rfl, rfl,
    add_file_stores_compressed_blob simpleCodec ⟨[]⟩
      ⟨[⟨SqlValue.text "k", SqlValue.integer 5, SqlValue.blob [0x78, 0x9c]⟩]⟩
      "k" ⟨5, 0⟩ [] [0x78, 0x9c] rfl rfl⟩

/-- C3: round trip — if the codec's round trip holds on the payload and
`add_file(k, t, d)` succeeded, then `retrieve_file(k, t)` on the
resulting store succeeds with exactly the original bytes `Some(d)`. -/
theorem round_trip (c : Codec) (db db' : FileDB) (k : String)
    (t : NaiveDateTime) (d cd : List UInt8)
    (hc : c.compress d = Except.ok cd)
    (hd : c.decompress cd = Except.ok d)
    (h : FileDB.add_file c none db k t d = Except.ok db') :
    FileDB.retrieve_file c none db' k t = Except.ok (some d) := by
  obtain ⟨hany, hrows⟩ := add_file_ok c db db' k t d cd hc h
  have hfind : db'.rows.find? (rowMatches k t.timestamp) =
      some ⟨SqlValue.text k, SqlValue.integer t.timestamp, SqlValue.blob cd⟩ := by
    rw [hrows, List.find?_append]
    have h1 : db.rows.find? (rowMatches k t.timestamp) = none := by
      rw [List.find?_eq_none]
      intro x hx hmatch
      exact absurd (List.any_eq_true.mpr ⟨x, hx, hmatch⟩)
        (by rw [hany]; exact Bool.false_ne_true)
    rw [h1]
    simp [List.find?, rowMatches_self]
  simp only [FileDB.retrieve_file, queryRowData, hfind, getBlob, optional, hd]

/-- Witness for C3: write "hello" under ("report.txt",
2023-01-01T00:00:00) into a fresh store and read it back. -/
theorem round_trip_witness :
    simpleCodec.compress [104, 101, 108, 108, 111] =
      Except.ok [0x78, 0x9c, 104, 101, 108, 108, 111] ∧
    simpleCodec.decompress [0x78, 0x9c, 104, 101, 108, 108, 111] =
      Except.ok [104, 101, 108, 108, 111] ∧
    FileDB.add_file simpleCodec none ⟨[]⟩ "report.txt" ⟨1672531200, 0⟩
        [104, 101, 108, 108, 111] =
      Except.ok ⟨[⟨SqlValue.text "report.txt", SqlValue.integer 1672531200,
        SqlValue.blob [0x78, 0x9c, 104, 101, 108, 108, 111]⟩]⟩ ∧
    FileDB.retrieve_file simpleCodec none
        ⟨[⟨SqlValue.text "report.txt", SqlValue.integer 1672531200,
          SqlValue.blob [0x78, 0x9c, 104, 101, 108, 108, 111]⟩]⟩
        "report.txt" ⟨1672531200, 0⟩ =
      Except.ok (some [104, 101, 108, 108, 111]) :=
  ⟨rfl, rfl, rfl,
    round_trip simpleCodec ⟨[]⟩
      ⟨[⟨SqlValue.text "report.txt", SqlValue.integer 1672531200,
        SqlValue.blob [0x78, 0x9c, 104, 101, 108, 108, 111]⟩]⟩
      "report.txt" ⟨1672531200, 0⟩ [104, 101, 108, 108, 111]
      [0x78, 0x9c, 104, 101, 108, 108, 111] rfl rfl rfl⟩

/-- C8: the release path binds the sweep's result with `let _ = ...`
(src/filedb.rs line 125), so whatever the outcome of the delete
statement — success or any engine error — releasing the handle reports
no error to its caller. -/
theorem drop_swallows_sweep_failure (fault : SqlFault) (db : FileDB)
    (now : NaiveDateTime) :
    (FileDB.drop fault db now).2 = none := by
  cases fault <;> rfl

/-- Helper: the length of a `filterMap` is the number of elements on
which the partial map yields a value. -/
theorem length_filterMap_eq_countP {α β : Type} (f : α → Option β) (l : List α) :
    (l.filterMap f).length = l.countP (fun a => (f a).isSome) := by
  induction l with
  | nil => rfl
  | cons a l ih =>
    cases hfa : f a <;>
      simp [List.filterMap_cons, hfa, List.countP_cons, ih]

/-- C6: the listing scan never aborts: it succeeds on every store, its
result is exactly the rows whose key/timestamp decode succeeds (in
storage order), and its length counts only the decodable rows — rows
whose decode fails are silently excluded. -/
theorem list_all_best_effort (db : FileDB) :
    ∃ l, FileDB.list_all none db = Except.ok l ∧
      l = (db.rows.filterMap (fun r => exceptToOption (listRowMapper r))).map
        (fun p => (p.1, NaiveDateTime.from_timestamp p.2)) ∧
      l.length = db.rows.countP (fun r => (exceptToOption (listRowMapper r)).isSome) := by
  refine ⟨_, rfl, ?_, ?_⟩
  · rw [List.filterMap_map]
    rfl
  · rw [List.length_map, List.filterMap_map, length_filterMap_eq_countP]
    rfl

/-- C7: releasing the handle at time `now` removes exactly the rows
whose stored integer timestamp is older than `now` minus 365 days:
reopening sees the swept store, every older row is gone, and every row
at or after the horizon survives. -/
theorem retention_sweep (now : NaiveDateTime) (db db2 : FileDB)
    (hdb2 : (FileDB.drop none db now).1 = db2) :
    FileDB.connect none none (some db2) = Except.ok db2 ∧
    (∀ r ∈ db.rows, ∀ s : Int, r.time_stamp = SqlValue.integer s →
      s < (now.subDays 365).timestamp → r ∉ db2.rows) ∧
    (∀ r ∈ db.rows, ∀ s : Int, r.time_stamp = SqlValue.integer s →
      (now.subDays 365).timestamp ≤ s → r ∈ db2.rows) := by
  subst hdb2
  refine ⟨rfl, ?_, ?_⟩
  · intro r _ s hts hold hmem
    have hkeep := (List.mem_filter.mp hmem).2
    rw [hts] at hkeep
    exact absurd (of_decide_eq_true hkeep) (not_le.mpr hold)
  · intro r hr s hts hge
    refine List.mem_filter.mpr ⟨hr, ?_⟩
    rw [hts]
    exact decide_eq_true hge

/-- Witness for C7 at a release time of 31536100 seconds (horizon 100):
the row stamped 50 is swept, the row stamped 100 survives reopening. -/
theorem retention_sweep_witness :
    FileDB.connect none none
        (some ⟨[⟨SqlValue.text "b", SqlValue.integer 100, SqlValue.blob []⟩]⟩) =
      Except.ok ⟨[⟨SqlValue.text "b", SqlValue.integer 100, SqlValue.blob []⟩]⟩ ∧
    (⟨SqlValue.text "a", SqlValue.integer 50, SqlValue.null⟩ : Row) ∉
      (FileDB.mk [⟨SqlValue.text "b", SqlValue.integer 100, SqlValue.blob []⟩]).rows ∧
    (⟨SqlValue.text "b", SqlValue.integer 100, SqlValue.blob []⟩ : Row) ∈
      (FileDB.mk [⟨SqlValue.text "b", SqlValue.integer 100, SqlValue.blob []⟩]).rows :=
  ⟨(retention_sweep ⟨31536100, 0⟩
      ⟨[⟨SqlValue.text "a", SqlValue.integer 50, SqlValue.null⟩,
        ⟨SqlValue.text "b", SqlValue.integer 100, SqlValue.blob []⟩]⟩
      ⟨[⟨SqlValue.text "b", SqlValue.integer 100, SqlValue.blob []⟩]⟩ rfl).1,
   (retention_sweep ⟨31536100, 0⟩
      ⟨[⟨SqlValue.text "a", SqlValue.integer 50, SqlValue.null⟩,
        ⟨SqlValue.text "b", SqlValue.integer 100, SqlValue.blob []⟩]⟩
      ⟨[⟨SqlValue.text "b", SqlValue.integer 100, SqlValue.blob []⟩]⟩ rfl).2.1
      ⟨SqlValue.text "a", SqlValue.integer 50, SqlValue.null⟩
      (List.mem_cons_self _ _) 50 rfl (by decide),
   (retention_sweep ⟨31536100, 0⟩
      ⟨[⟨SqlValue.text "a", SqlValue.integer 50, SqlValue.null⟩,
        ⟨SqlValue.text "b", SqlValue.integer 100, SqlValue.blob []⟩]⟩
      ⟨[⟨SqlValue.text "b", SqlValue.integer 100, SqlValue.blob []⟩]⟩ rfl).2.2
      ⟨SqlValue.text "b", SqlValue.integer 100, SqlValue.blob []⟩
      (List.mem_cons_of_mem _ (List.mem_cons_self _ _)) 100 rfl (by decide)⟩

/-- C9: every failure of the engine or of the codec during `connect`,
`add_file`, or `retrieve_file` is surfaced to the caller immediately as
`InternalError` wrapping the foreign error: the open fault, the
schema-init fault, a compression failure, an insert fault, a lookup
fault, and a decompression failure each map to exactly that error. -/
theorem internal_error_propagation :
    (∀ (e : RusqliteError) (f2 : SqlFault) (disk : Option FileDB),
      FileDB.connect (some e) f2 disk =
        Except.error (Error.InternalError (ForeignError.sqlite e))) ∧
    (∀ (e : RusqliteError) (disk : Option FileDB),
      FileDB.connect none (some e) disk =
        Except.error (Error.InternalError (ForeignError.sqlite e))) ∧
    (∀ (c : Codec) (f : SqlFault) (db : FileDB) (k : String)
        (t : NaiveDateTime) (d : List UInt8) (e : IoError),
      c.compress d = Except.error e →
      FileDB.add_file c f db k t d =
        Except.error (Error.InternalError (ForeignError.io e))) ∧
    (∀ (c : Codec) (db : FileDB) (k : String) (t : NaiveDateTime)
        (d cd : List UInt8) (e : RusqliteError),
      c.compress d = Except.ok cd →
      FileDB.add_file c (some e) db k t d =
        Except.error (Error.InternalError (ForeignError.sqlite e))) ∧
    (∀ (c : Codec) (db : FileDB) (k : String) (t : NaiveDateTime)
        (e : RusqliteError),
      FileDB.retrieve_file c (some e) db k t =
        Except.error (Error.InternalError (ForeignError.sqlite e))) ∧
    (∀ (c : Codec) (db : FileDB) (k : String) (t : NaiveDateTime)
        (b : List UInt8) (e : IoError),
      queryRowData db k t.timestamp = Except.ok b →
      c.decompress b = Except.error e →
      FileDB.retrieve_file c none db k t =
        Except.error (Error.InternalError (ForeignError.io e))) := by
  refine ⟨fun e f2 disk => rfl, fun e disk => rfl, ?_, ?_, fun c db k t e => rfl, ?_⟩
  · intro c f db k t d e hc
    simp only [FileDB.add_file, hc, Error.fromIo]
  · intro c db k t d cd e hc
    simp only [FileDB.add_file, hc, Error.fromSqlite]
  · intro c db k t b e hq hd
    simp only [FileDB.retrieve_file, hq, optional, hd, Error.fromIo]

/-- Witness for C9: each of the six failure paths evaluated on concrete
inputs. -/
theorem internal_error_propagation_witness :
    FileDB.connect (some (RusqliteError.other "open failed")) none none =
      Except.error (Error.InternalError (ForeignError.sqlite (RusqliteError.other "open failed"))) ∧
    FileDB.connect none (some (RusqliteError.other "init failed")) none =
      Except.error (Error.InternalError (ForeignError.sqlite (RusqliteError.other "init failed"))) ∧
    FileDB.add_file failingCodec none ⟨[]⟩ "k" ⟨0, 0⟩ [] =
      Except.error (Error.InternalError (ForeignError.io ⟨"compression failed"⟩)) ∧
    FileDB.add_file simpleCodec (some (RusqliteError.other "insert failed")) ⟨[]⟩ "k" ⟨0, 0⟩ [] =
      Except.error (Error.InternalError (ForeignError.sqlite (RusqliteError.other "insert failed"))) ∧
    FileDB.retrieve_file simpleCodec (some (RusqliteError.other "lookup failed")) ⟨[]⟩ "k" ⟨0, 0⟩ =
      Except.error (Error.InternalError (ForeignError.sqlite (RusqliteError.other "lookup failed"))) ∧
    FileDB.retrieve_file failingCodec none
        ⟨[⟨SqlValue.text "k", SqlValue.integer 0, SqlValue.blob [1]⟩]⟩ "k" ⟨0, 0⟩ =
      Except.error (Error.InternalError (ForeignError.io ⟨"corrupt deflate stream"⟩)) :=
  ⟨internal_error_propagation.1 (RusqliteError.other "open failed") none none,
   internal_error_propagation.2.1 (RusqliteError.other "init failed") none,
   internal_error_propagation.2.2.1 failingCodec none ⟨[]⟩ "k" ⟨0, 0⟩ [] ⟨"compression failed"⟩ rfl,
   internal_error_propagation.2.2.2.1 simpleCodec ⟨[]⟩ "k" ⟨0, 0⟩ []
     [0x78, 0x9c] (RusqliteError.other "insert failed") rfl,
   internal_error_propagation.2.2.2.2.1 simpleCodec ⟨[]⟩ "k" ⟨0, 0⟩
     (RusqliteError.other "lookup failed"),
   internal_error_propagation.2.2.2.2.2 failingCodec
     ⟨[⟨SqlValue.text "k", SqlValue.integer 0, SqlValue.blob [1]⟩]⟩ "k" ⟨0, 0⟩
     [1] ⟨"corrupt deflate stream"⟩ rfl rfl⟩

/-- Helper: the lookup predicate holds exactly on rows whose projected
column pair is the bound (TEXT key, INTEGER seconds) pair. -/
theorem rowMatches_eq_keyTs (k : String) (s : Int) (r : Row) :
    rowMatches k s r = true ↔
      keyTs r = (SqlValue.text k, SqlValue.integer s) := by
  simp [rowMatches, keyTs, Prod.ext_iff]

/-- Helper: running the writes in order succeeds when every payload
compresses, every bound pair is absent from the store, and the bound
pairs are pairwise distinct; the store gains exactly those column
pairs, in order. -/
theorem addAll_ok (c : Codec)
    (entries : List (String × NaiveDateTime × List UInt8)) :
    ∀ db : FileDB,
    (∀ e ∈ entries, ∃ cd, c.compress e.2.2 = Except.ok cd) →
    (∀ e ∈ entries, sqlPair e ∉ db.rows.map keyTs) →
    (entries.map sqlPair).Nodup →
    ∃ db', addAll c db entries = Except.ok db' ∧
      db'.rows.map keyTs = db.rows.map keyTs ++ entries.map sqlPair := by
  induction entries with
  | nil =>
    intro db _ _ _
    exact ⟨db, rfl, by simp⟩
  | cons e rest ih =>
    intro db hc hfresh hnodup
    obtain ⟨cd, hcd⟩ := hc e (List.mem_cons_self _ _)
    have hany : db.rows.any (rowMatches e.1 e.2.1.timestamp) = false := by
      by_contra hne
      have htrue : db.rows.any (rowMatches e.1 e.2.1.timestamp) = true := by
        revert hne
        cases db.rows.any (rowMatches e.1 e.2.1.timestamp) <;> simp
      obtain ⟨r, hr, hmatch⟩ := List.any_eq_true.mp htrue
      exact hfresh e (List.mem_cons_self _ _)
        (List.mem_map.mpr ⟨r, hr, (rowMatches_eq_keyTs _ _ _).mp hmatch⟩)
    have hadd : FileDB.add_file c none db e.1 e.2.1 e.2.2 =
        Except.ok ⟨db.rows ++
          [⟨SqlValue.text e.1, SqlValue.integer e.2.1.timestamp, SqlValue.blob cd⟩]⟩ := by
      simp only [FileDB.add_file, hcd, insertRow, hany, Bool.false_eq_true,
        if_false]
    obtain ⟨hnotin, hnodup2⟩ := List.nodup_cons.mp hnodup
    obtain ⟨db', hrun, hmap⟩ := ih
      ⟨db.rows ++
        [⟨SqlValue.text e.1, SqlValue.integer e.2.1.timestamp, SqlValue.blob cd⟩]⟩
      (fun e2 he2 => hc e2 (List.mem_cons_of_mem _ he2))
      (by
        intro e2 he2 hmem
        rw [List.map_append, List.mem_append] at hmem
        rcases hmem with hmem | hmem
        · exact hfresh e2 (List.mem_cons_of_mem _ he2) hmem
        · have : sqlPair e2 = sqlPair e := by
            simpa [keyTs, sqlPair] using hmem
          exact hnotin (this ▸ List.mem_map_of_mem sqlPair he2))
      hnodup2
    refine ⟨db', ?_, ?_⟩
    · simp only [addAll, hadd]
      exact hrun
    · rw [hmap]
      simp [sqlPair, keyTs, List.append_assoc]

/-- Helper: the listing result depends on the rows only through their
projected (key, time_stamp) column pairs. -/
theorem list_all_map_keyTs (db : FileDB) :
    FileDB.list_all none db =
      Except.ok ((((db.rows.map keyTs).map pairMapper).filterMap exceptToOption).map
        (fun p => (p.1, NaiveDateTime.from_timestamp p.2))) := by
  simp only [FileDB.list_all, List.map_map]
  rfl

/-- Helper: decoding the column pairs bound by `add_file` always
succeeds and recovers the written key and truncated seconds. -/
theorem filterMap_pairMapper_sqlPair
    (entries : List (String × NaiveDateTime × List UInt8)) :
    ((entries.map sqlPair).map pairMapper).filterMap exceptToOption =
      entries.map (fun e => (e.1, e.2.1.timestamp)) := by
  induction entries with
  | nil => rfl
  | cons e rest ih =>
    simp only [List.map_cons, List.filterMap_cons]
    rw [ih]
    rfl

/-- C5: writing N requests with pairwise-distinct (key, truncated
timestamp) pairs into a fresh store succeeds, and `list_all` on the
resulting store succeeds and returns exactly the N written (key,
second-granular timestamp) tuples, in write order — in particular their
multiset equals what was written. -/
theorem listing_matches_writes (c : Codec)
    (entries : List (String × NaiveDateTime × List UInt8))
    (hc : ∀ e ∈ entries, ∃ cd, c.compress e.2.2 = Except.ok cd)
    (hnodup : (entries.map sqlPair).Nodup) :
    ∃ db', addAll c ⟨[]⟩ entries = Except.ok db' ∧
      FileDB.list_all none db' =
        Except.ok (entries.map
          (fun e => (e.1, NaiveDateTime.from_timestamp e.2.1.timestamp))) := by
  obtain ⟨db', hrun, hmap⟩ := addAll_ok c entries ⟨[]⟩ hc
    (by intro e _ hmem; simp at hmem) hnodup
  refine ⟨db', hrun, ?_⟩
  rw [list_all_map_keyTs, hmap]
  simp only [List.map_nil, List.nil_append]
  rw [filterMap_pairMapper_sqlPair, List.map_map]
  rfl

/-- Witness for C5: two writes with distinct pairs into a fresh store;
the listing returns exactly those two tuples. -/
theorem listing_matches_writes_witness :
    (∀ e ∈ [("a", (⟨10, 0⟩ : NaiveDateTime), ([1] : List UInt8)),
            ("b", (⟨20, 0⟩ : NaiveDateTime), ([] : List UInt8))],
      ∃ cd, simpleCodec.compress e.2.2 = Except.ok cd) ∧
    (([("a", (⟨10, 0⟩ : NaiveDateTime), ([1] : List UInt8)),
       ("b", (⟨20, 0⟩ : NaiveDateTime), ([] : List UInt8))].map sqlPair).Nodup) ∧
    ∃ db', addAll simpleCodec ⟨[]⟩
        [("a", (⟨10, 0⟩ : NaiveDateTime), ([1] : List UInt8)),
         ("b", (⟨20, 0⟩ : NaiveDateTime), ([] : List UInt8))] = Except.ok db' ∧
      FileDB.list_all none db' =
        Except.ok [("a", NaiveDateTime.from_timestamp 10),
                   ("b", NaiveDateTime.from_timestamp 20)] :=
  ⟨by intro e he; exact ⟨0x78 :: 0x9c :: e.2.2, rfl⟩,
   by simp [sqlPair, NaiveDateTime.timestamp],
   listing_matches_writes simpleCodec
     [("a", (⟨10, 0⟩ : NaiveDateTime), ([1] : List UInt8)),
      ("b", (⟨20, 0⟩ : NaiveDateTime), ([] : List UInt8))]
     (by intro e he; exact ⟨0x78 :: 0x9c :: e.2.2, rfl⟩)
     (by simp [sqlPair, NaiveDateTime.timestamp])⟩

end Filedb
